import Mathlib

/-!
Shallow embedding of `main.py` from the ai-market-research-bot repository.

The script is sequential request/response glue: it calls the SerpAPI search
endpoint, reshapes the JSON into rows, calls the OpenAI chat API for a
summary, persists rows and summary to CSV/JSON files, and renders the
result through Streamlit.  We embed each function as a pure Lean function
from its inputs plus the responses of the external world to a result value
paired with the ordered list of observable events (HTTP calls, Streamlit
error boxes, file writes, UI renders, sleeps) the function performs.
-/

namespace MarketBot

/-- A search-result row as built by `get_search_results`: a record with
exactly the three fields `Title`, `Link`, `Snippet` (in the order the
Python dict literal lists them). -/
structure Row where
  Title : String
  Link : String
  Snippet : String
deriving DecidableEq

/-- One entry of the `organic_results` list of a parsed SerpAPI response.
Each of the three fields the script reads may be absent (`item.get`). -/
structure RawItem where
  title : Option String
  link : Option String
  snippet : Option String
deriving DecidableEq

/-- The parsed JSON body of the search response; `data.get("organic_results", [])`
defaults to the empty list, which we fold into the field itself. -/
structure SearchBody where
  organic_results : List RawItem
deriving DecidableEq

/-- The HTTP response `requests.get` returns: a status code and the parsed
JSON body (the script only calls `.json()` after the 200 check). -/
structure HttpResponse where
  status_code : Nat
  body : SearchBody
deriving DecidableEq

/-- `message` of an OpenAI chat choice. -/
structure Message where
  content : String
deriving DecidableEq

/-- One element of `response.choices`. -/
structure Choice where
  message : Message
deriving DecidableEq

/-- An OpenAI chat-completions response. -/
structure ChatResponse where
  choices : List Choice
deriving DecidableEq

/-- Object written by `json.dump({"results": data, "summary": summary}, ...)`. -/
structure SavedJson where
  results : List Row
  summary : String
deriving DecidableEq

/-- Purely presentational markup the second version of the script emits via
`st.markdown` / `st.set_page_config`; tags stand for the literal CSS/HTML
strings, whose exact text no claim depends on. -/
inductive MarkupTag where
  | cssStyle
  | themeOpen (dark : Bool)
  | headline
  | enterKeyword
  | reportHeading
  | competitorData
  | themeClose
deriving DecidableEq

/-- Observable events of a run, in program order. -/
inductive Event where
  | setPageConfig
  | uiStyle (tag : MarkupTag)
  | uiRadio
  | uiTitle
  | uiTextInput
  | uiButton
  | sleep (seconds : Nat)
  | httpGet (url : String) (q : String) (num : Nat)
  | stError (msg : String)
  | chatRequest (model : String) (prompt : String)
  | writeCsv (path : String) (rows : List Row) (index : Bool)
  | writeJson (path : String) (content : SavedJson)
  | uiReport (summary : String)
  | uiTable (rows : List Row)
  | uiChart (titles : List String)
  | uiDownload (path : String) (rows : List Row)
  | uiWarning
deriving DecidableEq

/-- The SerpAPI endpoint URL. -/
def serpUrl : String := "https://serpapi.com/search"

/-- `st.error` message on a non-200 search response. -/
def fetchErrorMsg : String :=
  "Error fetching search results. Please check your API key and connection."

/-- Row built from one `organic_results` item, with the placeholder
defaults of the three `item.get` calls. -/
def rowOfItem (item : RawItem) : Row :=
  { Title := item.title.getD "No title"
    Link := item.link.getD "No link"
    Snippet := item.snippet.getD "No description available" }

/-- `get_search_results(query, num_results=5)`: issues one GET to SerpAPI;
on a non-200 status shows an error and returns `[]`; otherwise maps the
`organic_results` entries to rows.  `resp` is the world's response to the
single GET the function performs. -/
def get_search_results (query : String) (num_results : Nat) (resp : HttpResponse) :
    List Row × List Event :=
  let callEv := Event.httpGet serpUrl query num_results
  if resp.status_code ≠ 200 then
    ([], [callEv, Event.stError fetchErrorMsg])
  else
    ((resp.body.organic_results).map rowOfItem, [callEv])

/-- The `"Title: Snippet (Link)"` line built for one row inside
`summarize_data`. -/
def lineOf (item : Row) : String :=
  item.Title ++ ": " ++ item.Snippet ++ " (" ++ item.Link ++ ")"

/-- The prompt `summarize_data` sends for a non-empty row list. -/
def promptFor (data : List Row) : String :=
  "Perform a competitive analysis based on these results: " ++
    String.intercalate "\n" (data.map lineOf)

/-- `summarize_data(data)`: returns a fixed message on empty input without
contacting the API; otherwise issues one chat request and returns the first
choice's content, or an `"Error generating AI summary: ..."` string when
the call raises (the `except` also catches the index error of
`response.choices[0]` on an empty choice list).  `outcome` is the world's
answer to the single chat request: a response, or the exception message. -/
def summarize_data (data : List Row) (outcome : Except String ChatResponse) :
    String × List Event :=
  if data = [] then
    ("No relevant data found for analysis.", [])
  else
    let result :=
      match outcome with
      | Except.error e => "Error generating AI summary: " ++ e
      | Except.ok resp =>
        match resp.choices.head? with
        | some c => c.message.content
        | none => "Error generating AI summary: list index out of range"
    (result, [Event.chatRequest "gpt-4-turbo" (promptFor data)])

/-- `save_results(data, summary)`: writes the rows to
`competitive_analysis.csv` with `index=False` and the
`{"results": data, "summary": summary}` object to
`competitive_analysis.json`; it returns no value, so its embedding is just
its event trace. -/
def save_results (data : List Row) (summary : String) : List Event :=
  [Event.writeCsv "competitive_analysis.csv" data false,
   Event.writeJson "competitive_analysis.json" ⟨data, summary⟩]

/-- `visualize_data(data)`: renders one horizontal bar chart whose bars are
labelled by the rows' titles. -/
def visualize_data (data : List Row) : List Event :=
  [Event.uiChart (data.map (fun item => item.Title))]

/-- The user interaction and external-world responses one run of `main`
consumes: the chosen theme, the text-input value, whether the Analyze
button was pressed, and the answers of the two APIs. -/
structure Env where
  darkMode : Bool
  query : String
  analyze_button : Bool
  searchResp : HttpResponse
  chatOutcome : Except String ChatResponse

/-- The fixed header `main` renders before reading the button: page config,
CSS block, theme radio, theme `<div>`, title, headline, keyword heading,
text input, Analyze button. -/
def headerTrace (dark : Bool) : List Event :=
  [Event.setPageConfig,
   Event.uiStyle MarkupTag.cssStyle,
   Event.uiRadio,
   Event.uiStyle (MarkupTag.themeOpen dark),
   Event.uiTitle,
   Event.uiStyle MarkupTag.headline,
   Event.uiStyle MarkupTag.enterKeyword,
   Event.uiTextInput,
   Event.uiButton]

/-- `main()`: renders the header, and when the Analyze button is pressed
with a truthy (non-empty) query, sleeps, fetches the search results,
and — when they are non-empty — sleeps, summarizes, saves, and renders
report, table, chart and download button; otherwise warns.  A closing
`</div>` markdown ends the page either way. -/
def main (env : Env) : List Event :=
  headerTrace env.darkMode ++
  (if env.analyze_button ∧ env.query ≠ "" then
    let fetched := get_search_results env.query 5 env.searchResp
    let data := fetched.1
    Event.sleep 2 :: fetched.2 ++
    (if data ≠ [] then
      let summarized := summarize_data data env.chatOutcome
      let summary := summarized.1
      Event.sleep 2 :: summarized.2 ++
      save_results data summary ++
      [Event.uiStyle MarkupTag.reportHeading,
       Event.uiReport summary,
       Event.uiStyle MarkupTag.competitorData,
       Event.uiTable data] ++
      visualize_data data ++
      [Event.uiDownload "competitive_analysis.csv" data]
    else
      [Event.uiWarning])
  else []) ++
  [Event.uiStyle MarkupTag.themeClose]

/-- Events the second version of the script adds over the first: purely
presentational markup (page config, CSS, theme chooser, decorative
headings) and the artificial `time.sleep` delays. -/
def isCosmetic : Event → Bool
  | Event.setPageConfig => true
  | Event.uiStyle _ => true
  | Event.uiRadio => true
  | Event.sleep _ => true
  | _ => false

/-- Modelled from the spec: the repository's first source file (the
original version of the script) is not under `src/`; the spec says the two
files are near-duplicate versions of the same script, the second merely
adding cosmetic styling and an artificial delay before rendering.  So the
first version runs the same pipeline — title, text input, button, then
search, summarize, save, report, table, chart, download (or warning) —
without the CSS/theme markup, the decorative headings, and the sleeps. -/
def main_v1 (env : Env) : List Event :=
  [Event.uiTitle, Event.uiTextInput, Event.uiButton] ++
  (if env.analyze_button ∧ env.query ≠ "" then
    let fetched := get_search_results env.query 5 env.searchResp
    let data := fetched.1
    fetched.2 ++
    (if data ≠ [] then
      let summarized := summarize_data data env.chatOutcome
      let summary := summarized.1
      summarized.2 ++
      save_results data summary ++
      [Event.uiReport summary, Event.uiTable data] ++
      visualize_data data ++
      [Event.uiDownload "competitive_analysis.csv" data]
    else
      [Event.uiWarning])
  else [])

/-- Event is a write to a disk file. -/
def isFileWrite : Event → Bool
  | Event.writeCsv _ _ _ => true
  | Event.writeJson _ _ => true
  | _ => false

/-- Event is an HTTP GET to the search API. -/
def isSearchCall : Event → Bool
  | Event.httpGet _ _ _ => true
  | _ => false

/-- Event is a request to the summarization API. -/
def isChatCall : Event → Bool
  | Event.chatRequest _ _ => true
  | _ => false

/-! ### Concrete test data used by the witnesses -/

/-- A sample parsed search item with all three fields present. -/
def itemEx : RawItem :=
  { title := some "Acme Corp", link := some "https://acme.example",
    snippet := some "Market leader in widgets" }

/-- A sample search item with all three fields missing. -/
def itemBare : RawItem := { title := none, link := none, snippet := none }

/-- A successful search response with one organic result. -/
def respOk : HttpResponse := { status_code := 200, body := ⟨[itemEx]⟩ }

/-- A successful search response with no organic results. -/
def respEmpty : HttpResponse := { status_code := 200, body := ⟨[]⟩ }

/-- A failed search response (HTTP 500). -/
def respBad : HttpResponse := { status_code := 500, body := ⟨[itemEx]⟩ }

/-- A successful chat outcome with one choice. -/
def chatOk : Except String ChatResponse :=
  Except.ok ⟨[⟨⟨"Acme dominates the widget market."⟩⟩]⟩

/-- A sample full environment: button pressed, non-empty query, both API
calls succeed. -/
def envEx : Env :=
  { darkMode := false, query := "widgets", analyze_button := true,
    searchResp := respOk, chatOutcome := chatOk }

/-- An environment in which the Analyze button is not pressed. -/
def envNoPress : Env :=
  { darkMode := false, query := "widgets", analyze_button := false,
    searchResp := respOk, chatOutcome := chatOk }

/-- An environment whose search succeeds but returns no organic results. -/
def envNoData : Env :=
  { darkMode := false, query := "widgets", analyze_button := true,
    searchResp := respEmpty, chatOutcome := chatOk }

/-! ### Helper evaluation lemmas -/

/-- Per-constructor evaluation of `isCosmetic`, usable by `simp` without
unfolding the definition under a binder. -/
theorem isCosmetic_eval :
    isCosmetic Event.setPageConfig = true ∧
    (∀ t, isCosmetic (Event.uiStyle t) = true) ∧
    isCosmetic Event.uiRadio = true ∧
    (∀ n, isCosmetic (Event.sleep n) = true) ∧
    isCosmetic Event.uiTitle = false ∧
    isCosmetic Event.uiTextInput = false ∧
    isCosmetic Event.uiButton = false ∧
    (∀ u q n, isCosmetic (Event.httpGet u q n) = false) ∧
    (∀ m, isCosmetic (Event.stError m) = false) ∧
    (∀ m p, isCosmetic (Event.chatRequest m p) = false) ∧
    (∀ p r i, isCosmetic (Event.writeCsv p r i) = false) ∧
    (∀ p c, isCosmetic (Event.writeJson p c) = false) ∧
    (∀ s, isCosmetic (Event.uiReport s) = false) ∧
    (∀ r, isCosmetic (Event.uiTable r) = false) ∧
    (∀ t, isCosmetic (Event.uiChart t) = false) ∧
    (∀ p r, isCosmetic (Event.uiDownload p r) = false) ∧
    isCosmetic Event.uiWarning = false :=
  ⟨rfl, fun _ => rfl, rfl, fun _ => rfl, rfl, rfl, rfl, fun _ _ _ => rfl,
   fun _ => rfl, fun _ _ => rfl, fun _ _ _ => rfl, fun _ _ => rfl,
   fun _ => rfl, fun _ => rfl, fun _ => rfl, fun _ _ => rfl, rfl⟩

/-- Per-constructor evaluation of `isFileWrite`. -/
theorem isFileWrite_eval :
    (∀ p r i, isFileWrite (Event.writeCsv p r i) = true) ∧
    (∀ p c, isFileWrite (Event.writeJson p c) = true) ∧
    isFileWrite Event.setPageConfig = false ∧
    (∀ t, isFileWrite (Event.uiStyle t) = false) ∧
    isFileWrite Event.uiRadio = false ∧
    (∀ n, isFileWrite (Event.sleep n) = false) ∧
    isFileWrite Event.uiTitle = false ∧
    isFileWrite Event.uiTextInput = false ∧
    isFileWrite Event.uiButton = false ∧
    (∀ u q n, isFileWrite (Event.httpGet u q n) = false) ∧
    (∀ m, isFileWrite (Event.stError m) = false) ∧
    (∀ m p, isFileWrite (Event.chatRequest m p) = false) ∧
    (∀ s, isFileWrite (Event.uiReport s) = false) ∧
    (∀ r, isFileWrite (Event.uiTable r) = false) ∧
    (∀ t, isFileWrite (Event.uiChart t) = false) ∧
    (∀ p r, isFileWrite (Event.uiDownload p r) = false) ∧
    isFileWrite Event.uiWarning = false :=
  ⟨fun _ _ _ => rfl, fun _ _ => rfl, rfl, fun _ => rfl, rfl, fun _ => rfl,
   rfl, rfl, rfl, fun _ _ _ => rfl, fun _ => rfl, fun _ _ => rfl,
   fun _ => rfl, fun _ => rfl, fun _ => rfl, fun _ _ => rfl, rfl⟩

/-! ### Claim theorems -/

/-- C2: for every query and every successfully parsed (status-200) search
response, `get_search_results` returns exactly one `Title`/`Link`/`Snippet`
row per entry of the response's `organic_results` list — the rows are the
image of `organic_results` under `rowOfItem`, and in particular there are
exactly as many rows as entries.  (That each element carries exactly the
three fields is enforced by the `Row` type the rows inhabit.) -/
theorem get_search_results_shape (q : String) (n : Nat) (resp : HttpResponse)
    (h : resp.status_code = 200) :
    (get_search_results q n resp).1 = resp.body.organic_results.map rowOfItem ∧
    (get_search_results q n resp).1.length = resp.body.organic_results.length := by
  simp [get_search_results, h]

/-- Witness for C2 at a concrete 200 response with one organic result. -/
theorem get_search_results_shape_witness :
    (get_search_results "widgets" 5 respOk).1 = [rowOfItem itemEx] ∧
    (get_search_results "widgets" 5 respOk).1.length = 1 :=
  get_search_results_shape "widgets" 5 respOk (by decide)

/-- C3: `save_results` writes the rows to `competitive_analysis.csv`
without an index column and the object holding exactly the rows under
`results` and the summary under `summary` to `competitive_analysis.json`;
its trace consists of those two file writes and nothing else, and it
returns no value (its embedding is the bare trace). -/
theorem save_results_spec (data : List Row) (summary : String) :
    save_results data summary =
      [Event.writeCsv "competitive_analysis.csv" data false,
       Event.writeJson "competitive_analysis.json" ⟨data, summary⟩] ∧
    (save_results data summary).all isFileWrite = true := by
  exact ⟨rfl, rfl⟩

/-- C4: on a non-empty row list and a successful API call,
`summarize_data` sends one chat request whose prompt is the analysis
preamble followed by one `Title: Snippet (Link)` line per row, and returns
the content of the response's first choice. -/
theorem summarize_data_success (data : List Row) (resp : ChatResponse)
    (c : Choice) (rest : List Choice)
    (hd : data ≠ []) (hc : resp.choices = c :: rest) :
    summarize_data data (Except.ok resp) =
      (c.message.content,
       [Event.chatRequest "gpt-4-turbo"
         ("Perform a competitive analysis based on these results: " ++
          String.intercalate "\n" (data.map (fun item =>
            item.Title ++ ": " ++ item.Snippet ++ " (" ++ item.Link ++ ")")))]) := by
  simp [summarize_data, hd, hc, promptFor]
  rfl

/-- Witness for C4 at a concrete one-row list and one-choice response. -/
theorem summarize_data_success_witness :
    summarize_data [rowOfItem itemEx] chatOk =
      ("Acme dominates the widget market.",
       [Event.chatRequest "gpt-4-turbo"
         ("Perform a competitive analysis based on these results: " ++
          String.intercalate "\n" ([rowOfItem itemEx].map (fun item =>
            item.Title ++ ": " ++ item.Snippet ++ " (" ++ item.Link ++ ")")))]) :=
  summarize_data_success [rowOfItem itemEx] ⟨[⟨⟨"Acme dominates the widget market."⟩⟩]⟩
    ⟨⟨"Acme dominates the widget market."⟩⟩ [] (by decide) rfl

/-- C6: no operation retries — the trace of `get_search_results` contains
exactly one search-API call whatever the response status, and the trace of
`summarize_data` contains exactly one summarization call when its input is
non-empty and none when it is empty; in particular never more than one. -/
theorem no_retry_single_call (q : String) (n : Nat) (r : HttpResponse)
    (data : List Row) (out : Except String ChatResponse) :
    (get_search_results q n r).2.countP isSearchCall = 1 ∧
    (summarize_data data out).2.countP isChatCall =
      (if data = [] then 0 else 1) ∧
    (summarize_data data out).2.countP isChatCall ≤ 1 := by
  refine ⟨?_, ?_, ?_⟩
  · by_cases h : r.status_code = 200 <;>
      simp [get_search_results, h, List.countP, List.countP.go, isSearchCall]
  · by_cases hd : data = [] <;>
      simp [summarize_data, hd, List.countP, List.countP.go, isChatCall]
  · by_cases hd : data = [] <;>
      simp [summarize_data, hd, List.countP, List.countP.go, isChatCall]

/-- C8: on a non-200 search response `get_search_results` shows the error
message and returns the empty list (its whole trace is the one GET plus
the error box), and whenever the parsed response has no `organic_results`
entries the returned list is empty as well — so an empty return is the
only failure signal. -/
theorem get_search_results_failure (q : String) (n : Nat) (r : HttpResponse) :
    (r.status_code ≠ 200 →
      (get_search_results q n r).1 = [] ∧
      (get_search_results q n r).2 =
        [Event.httpGet serpUrl q n, Event.stError fetchErrorMsg]) ∧
    (r.body.organic_results = [] → (get_search_results q n r).1 = []) := by
  constructor
  · intro h
    simp [get_search_results, h]
  · intro h
    by_cases hs : r.status_code = 200 <;> simp [get_search_results, hs, h]

/-- Witness for C8 at a concrete HTTP-500 response. -/
theorem get_search_results_failure_witness :
    (get_search_results "x" 5 respBad).1 = [] ∧
    (get_search_results "x" 5 respBad).2 =
      [Event.httpGet serpUrl "x" 5, Event.stError fetchErrorMsg] :=
  (get_search_results_failure "x" 5 respBad).1 (by decide)

/-- C9: `summarize_data` never propagates an exception: on the empty list
it returns exactly "No relevant data found for analysis." with an empty
trace (no API contact), and when the API call raises with message `e` it
returns the string "Error generating AI summary: " followed by `e`
instead of raising (its embedding is total, returning a plain string). -/
theorem summarize_data_no_raise (data : List Row)
    (out : Except String ChatResponse) (e : String) :
    summarize_data [] out = ("No relevant data found for analysis.", []) ∧
    (data ≠ [] →
      (summarize_data data (Except.error e)).1 =
        "Error generating AI summary: " ++ e) := by
  constructor
  · simp [summarize_data]
  · intro hd
    simp [summarize_data, hd]

/-- Witness for C9 at a concrete non-empty list and a raising API call. -/
theorem summarize_data_no_raise_witness :
    (summarize_data [rowOfItem itemEx] (Except.error "timeout")).1 =
      "Error generating AI summary: " ++ "timeout" :=
  (summarize_data_no_raise [rowOfItem itemEx] chatOk "timeout").2 (by decide)

/-- C10: every row `get_search_results` returns is `rowOfItem` of some
entry of `organic_results`, and `rowOfItem` fills each missing field with
its placeholder ("No title"/"No link"/"No description available"), so all
three fields of every returned row are populated strings and the field
accesses in `summarize_data` (via `lineOf`) and `visualize_data` are total
by construction. -/
theorem rows_fully_populated (q : String) (n : Nat) (r : HttpResponse) :
    (∀ row ∈ (get_search_results q n r).1,
      ∃ item ∈ r.body.organic_results, row = rowOfItem item) ∧
    rowOfItem itemBare =
      { Title := "No title", Link := "No link",
        Snippet := "No description available" } ∧
    (∀ item : RawItem,
      (rowOfItem item).Title = item.title.getD "No title" ∧
      (rowOfItem item).Link = item.link.getD "No link" ∧
      (rowOfItem item).Snippet = item.snippet.getD "No description available") := by
  refine ⟨?_, rfl, fun item => ⟨rfl, rfl, rfl⟩⟩
  intro row hrow
  by_cases hs : r.status_code = 200
  · simp [get_search_results, hs] at hrow
    obtain ⟨item, hmem, hitem⟩ := hrow
    exact ⟨item, hmem, hitem.symm⟩
  · simp [get_search_results, hs] at hrow

/-- Witness for C10 at the concrete 200 response with one organic result. -/
theorem rows_fully_populated_witness :
    ∃ item ∈ respOk.body.organic_results, rowOfItem itemEx = rowOfItem item :=
  (rows_fully_populated "widgets" 5 respOk).1 (rowOfItem itemEx) (by decide)

/-- C1: when the Analyze button is pressed with a non-empty query and the
search returns non-empty data, the whole run is the header followed by, in
exactly this order: the search-API call, the summarization-API call on the
rows reshaped from the search JSON, the two file writes persisting rows
and summary, and only then the report, table and chart renders (plus the
download button and closing markup). -/
theorem main_pipeline_order (env : Env)
    (hb : env.analyze_button = true) (hq : env.query ≠ "")
    (hd : (get_search_results env.query 5 env.searchResp).1 ≠ []) :
    main env =
      headerTrace env.darkMode ++
      [Event.sleep 2,
       Event.httpGet serpUrl env.query 5,
       Event.sleep 2,
       Event.chatRequest "gpt-4-turbo"
         (promptFor (get_search_results env.query 5 env.searchResp).1),
       Event.writeCsv "competitive_analysis.csv"
         (get_search_results env.query 5 env.searchResp).1 false,
       Event.writeJson "competitive_analysis.json"
         ⟨(get_search_results env.query 5 env.searchResp).1,
          (summarize_data (get_search_results env.query 5 env.searchResp).1
            env.chatOutcome).1⟩,
       Event.uiStyle MarkupTag.reportHeading,
       Event.uiReport (summarize_data
         (get_search_results env.query 5 env.searchResp).1 env.chatOutcome).1,
       Event.uiStyle MarkupTag.competitorData,
       Event.uiTable (get_search_results env.query 5 env.searchResp).1,
       Event.uiChart ((get_search_results env.query 5 env.searchResp).1.map
         (fun item => item.Title)),
       Event.uiDownload "competitive_analysis.csv"
         (get_search_results env.query 5 env.searchResp).1,
       Event.uiStyle MarkupTag.themeClose] := by
  have hs : env.searchResp.status_code = 200 := by
    by_contra hs
    exact hd (by simp [get_search_results, hs])
  have htrace : (get_search_results env.query 5 env.searchResp).2 =
      [Event.httpGet serpUrl env.query 5] := by
    simp [get_search_results, hs]
  have hsum : (summarize_data (get_search_results env.query 5 env.searchResp).1
      env.chatOutcome).2 =
      [Event.chatRequest "gpt-4-turbo"
        (promptFor (get_search_results env.query 5 env.searchResp).1)] := by
    simp [summarize_data, hd]
  simp [main, hb, hq, hd, htrace, hsum, save_results, visualize_data]

/-- Witness for C1 at the concrete environment `envEx`. -/
theorem main_pipeline_order_witness :
    main envEx =
      headerTrace envEx.darkMode ++
      [Event.sleep 2,
       Event.httpGet serpUrl envEx.query 5,
       Event.sleep 2,
       Event.chatRequest "gpt-4-turbo"
         (promptFor (get_search_results envEx.query 5 envEx.searchResp).1),
       Event.writeCsv "competitive_analysis.csv"
         (get_search_results envEx.query 5 envEx.searchResp).1 false,
       Event.writeJson "competitive_analysis.json"
         ⟨(get_search_results envEx.query 5 envEx.searchResp).1,
          (summarize_data (get_search_results envEx.query 5 envEx.searchResp).1
            envEx.chatOutcome).1⟩,
       Event.uiStyle MarkupTag.reportHeading,
       Event.uiReport (summarize_data
         (get_search_results envEx.query 5 envEx.searchResp).1 envEx.chatOutcome).1,
       Event.uiStyle MarkupTag.competitorData,
       Event.uiTable (get_search_results envEx.query 5 envEx.searchResp).1,
       Event.uiChart ((get_search_results envEx.query 5 envEx.searchResp).1.map
         (fun item => item.Title)),
       Event.uiDownload "competitive_analysis.csv"
         (get_search_results envEx.query 5 envEx.searchResp).1,
       Event.uiStyle MarkupTag.themeClose] :=
  main_pipeline_order envEx rfl (by decide) (by decide)

/-- C5 counterexample: the result of `get_search_results` is not
determined by a two-way case split on emptiness of its query argument —
two calls with the same non-empty query "x" differ because the branch the
function actually takes tests the HTTP response, not the input. -/
theorem get_result_not_emptiness_split :
    ¬ ∃ a b : List Row × List Event, ∀ (q : String) (r : HttpResponse),
        get_search_results q 5 r = if q = "" then a else b := by
  rintro ⟨a, b, h⟩
  have h1 := h "x" respOk
  have h2 := h "x" respEmpty
  rw [if_neg (by decide : ¬("x" = ""))] at h1 h2
  have hcontra : get_search_results "x" 5 respOk =
      get_search_results "x" 5 respEmpty := by rw [h1, h2]
  exact absurd hcontra (by decide)

/-- C5 amended: each of the five functions is straight-line glue, but the
conditional branching is not always a single emptiness check on the input:
`get_search_results` branches once on the response status, not on its query
(its rows do not depend on the query at all), `summarize_data` branches on
emptiness of its input (ignoring the API entirely when empty) besides its
exception guard, `save_results` and `visualize_data` are branch-free with
fixed-shape traces, and `main` guards its work behind two nested
conditions — Analyze pressed with a non-empty query, then emptiness of the
fetched rows — rendering only the fixed page frame when the first guard
fails and the frame plus the search attempt and a warning when the second
does. -/
theorem functions_single_branch :
    (∀ (q1 q2 : String) (n : Nat) (r : HttpResponse),
      (get_search_results q1 n r).1 = (get_search_results q2 n r).1) ∧
    (∀ (q : String) (n : Nat) (r : HttpResponse), r.status_code ≠ 200 →
      get_search_results q n r =
        ([], [Event.httpGet serpUrl q n, Event.stError fetchErrorMsg])) ∧
    (∀ out : Except String ChatResponse,
      summarize_data [] out = ("No relevant data found for analysis.", [])) ∧
    (∀ (d : List Row) (s : String), (save_results d s).length = 2) ∧
    (∀ d : List Row, (visualize_data d).length = 1) ∧
    (∀ env : Env, ¬(env.analyze_button = true ∧ env.query ≠ "") →
      main env =
        headerTrace env.darkMode ++ [Event.uiStyle MarkupTag.themeClose]) ∧
    (∀ env : Env, env.analyze_button = true → env.query ≠ "" →
      (get_search_results env.query 5 env.searchResp).1 = [] →
      main env =
        headerTrace env.darkMode ++
        Event.sleep 2 :: (get_search_results env.query 5 env.searchResp).2 ++
        [Event.uiWarning, Event.uiStyle MarkupTag.themeClose]) := by
  refine ⟨?_, ?_, ?_, ?_, ?_, ?_, ?_⟩
  · intro q1 q2 n r
    by_cases hs : r.status_code = 200 <;> simp [get_search_results, hs]
  · intro q n r h
    simp [get_search_results, h]
  · intro out
    simp [summarize_data]
  · intro d s
    rfl
  · intro d
    rfl
  · intro env h
    simp [main, h]
  · intro env hb hq hd
    simp [main, hb, hq, hd]

/-- Witness for the amended C5: the concrete HTTP-500 response for the
status branch of `get_search_results`, and the two concrete environments
exercising both of the guards of `main`. -/
theorem functions_single_branch_witness :
    get_search_results "x" 5 respBad =
      ([], [Event.httpGet serpUrl "x" 5, Event.stError fetchErrorMsg]) ∧
    main envNoPress =
      headerTrace envNoPress.darkMode ++ [Event.uiStyle MarkupTag.themeClose] ∧
    main envNoData =
      headerTrace envNoData.darkMode ++
      Event.sleep 2 :: (get_search_results envNoData.query 5 envNoData.searchResp).2 ++
      [Event.uiWarning, Event.uiStyle MarkupTag.themeClose] :=
  ⟨functions_single_branch.2.1 "x" 5 respBad (by decide),
   functions_single_branch.2.2.2.2.2.1 envNoPress (by decide),
   functions_single_branch.2.2.2.2.2.2 envNoData rfl (by decide) (by decide)⟩

/-- C7: for every input, the script under `src/` and the spec-modelled
first version compute the same pipeline — stripping the cosmetic styling
events and the artificial delays from the second version's trace yields
exactly the first version's trace, and in particular both persist exactly
the same files.  (spec-modelled: the first source file is absent from
`src/`; `main_v1` follows the spec's description of it.) -/
theorem v1_v2_equivalence (env : Env) :
    (main env).filter (fun e => !(isCosmetic e)) = main_v1 env ∧
    (main env).filter isFileWrite = (main_v1 env).filter isFileWrite := by
  have hget : ∀ (q : String) (n : Nat) (r : HttpResponse),
      ((get_search_results q n r).2).filter (fun e => !(isCosmetic e)) =
        (get_search_results q n r).2 := by
    intro q n r
    by_cases hs : r.status_code = 200 <;>
      simp [get_search_results, hs, isCosmetic_eval]
  have hsum : ∀ (d : List Row) (out : Except String ChatResponse),
      ((summarize_data d out).2).filter (fun e => !(isCosmetic e)) =
        (summarize_data d out).2 := by
    intro d out
    by_cases hd : d = [] <;> simp [summarize_data, hd, isCosmetic_eval]
  have hgetW : ∀ (q : String) (n : Nat) (r : HttpResponse),
      ((get_search_results q n r).2).filter isFileWrite = [] := by
    intro q n r
    by_cases hs : r.status_code = 200 <;>
      simp [get_search_results, hs, isFileWrite_eval]
  have hsumW : ∀ (d : List Row) (out : Except String ChatResponse),
      ((summarize_data d out).2).filter isFileWrite = [] := by
    intro d out
    by_cases hd : d = [] <;> simp [summarize_data, hd, isFileWrite_eval]
  refine ⟨?_, ?_⟩
  · by_cases hb : env.analyze_button ∧ env.query ≠ ""
    · by_cases hd : (get_search_results env.query 5 env.searchResp).1 = []
      · simp [main, main_v1, headerTrace, hb, hd, List.filter_append, hget,
              isCosmetic_eval]
      · simp [main, main_v1, headerTrace, hb, hd, List.filter_append, hget,
              hsum, save_results, visualize_data, isCosmetic_eval]
    · simp [main, main_v1, headerTrace, hb, isCosmetic_eval]
  · by_cases hb : env.analyze_button ∧ env.query ≠ ""
    · by_cases hd : (get_search_results env.query 5 env.searchResp).1 = []
      · simp [main, main_v1, headerTrace, hb, hd, List.filter_append, hgetW,
              isFileWrite_eval]
      · simp [main, main_v1, headerTrace, hb, hd, List.filter_append, hgetW,
              hsumW, save_results, visualize_data, isFileWrite_eval]
    · simp [main, main_v1, headerTrace, hb, isFileWrite_eval]

end MarketBot
